import Mathlib

/-!
Verification of the TeslapLX ELM327 adapter core (filter engine, command
interpreter session state, CAN ingestion rate limiter, buffered Bluetooth
transport, monitor streamer) against its natural-language specification.

The C sources (src/main/elm.c, can.c, bt.c) are shallowly embedded:
machine integers become `Nat` with explicit `% 2^32` where 32-bit overflow
matters, fixed C arrays become `List`s, and the mutable globals structs
become explicit state values threaded through the functions.
-/

set_option autoImplicit false
set_option linter.unusedVariables false

namespace TeslapLX

-- ===========================  FilterEngine (elm.c)  ===========================

/-- `elm_filter_t`: one pattern/mask rule. Fields are `uint32_t` in C. -/
structure ElmFilter where
  pattern : Nat
  mask : Nat
deriving DecidableEq, Repr

/-- `ELM_ST_FILTER_LEN`: capacity of each ST filter table. -/
def ELM_ST_FILTER_LEN : Nat := 100

/-- A rule matches `id` iff `(id & mask) == (pattern & mask)` (the comparison
done inside `elm_filter_test` for each table entry). -/
def elm_filter_match (f : ElmFilter) (id : Nat) : Bool :=
  (id &&& f.mask) == (f.pattern &&& f.mask)

/-- `elm_filter_clear`: zero out table slots from the front, stopping at the
first slot whose mask is 0 (that slot and everything after are untouched). -/
def elm_filter_clear : List ElmFilter → List ElmFilter
  | [] => []
  | f :: fs => if f.mask = 0 then f :: fs else ⟨0, 0⟩ :: elm_filter_clear fs

/-- `elm_filter_add`: write `pattern`/`mask` into the lowest-index slot whose
mask is 0; `none` models the C `false` return when no slot is free. -/
def elm_filter_add : List ElmFilter → Nat → Nat → Option (List ElmFilter)
  | [], _, _ => none
  | f :: fs, p, m =>
      if f.mask = 0 then some (⟨p, m⟩ :: fs)
      else
        match elm_filter_add fs p m with
        | none => none
        | some gs => some (f :: gs)

/-- The `filter[0].mask != 0` guard of `elm_filter_test` (list form). -/
def filter_head_active : List ElmFilter → Bool
  | [] => false
  | f :: _ => decide (f.mask ≠ 0)

/-- The inner scan loops of `elm_filter_test`: walk the table, stop at the
first slot whose mask is 0, return whether some visited rule matches `id`. -/
def filter_scan : List ElmFilter → Nat → Bool
  | [], _ => false
  | f :: fs, id =>
      if f.mask = 0 then false
      else if elm_filter_match f id then true else filter_scan fs id

-- Spec-side view of a filter table: the rules actually stored in it.

/-- The occupied rules of a table: entries whose mask is nonzero. -/
def stored_rules (fs : List ElmFilter) : List ElmFilter :=
  fs.filter (fun f => f.mask ≠ 0)

/-- Table well-formedness: occupied slots (mask ≠ 0) form a contiguous
front segment; after the first free slot every slot is free. -/
def filters_wf : List ElmFilter → Bool
  | [] => true
  | f :: fs => if f.mask = 0 then fs.all (fun r => r.mask == 0) else filters_wf fs

theorem filters_wf_cons_free {f : ElmFilter} {fs : List ElmFilter}
    (hf : f.mask = 0) (h : filters_wf (f :: fs) = true) :
    ∀ r ∈ fs, r.mask = 0 := by
  simpa [filters_wf, hf, List.all_eq_true] using h

theorem filters_wf_cons_active {f : ElmFilter} {fs : List ElmFilter}
    (hf : ¬ f.mask = 0) (h : filters_wf (f :: fs) = true) :
    filters_wf fs = true := by
  simpa [filters_wf, hf] using h

theorem filters_wf_of_all_free {fs : List ElmFilter}
    (h : ∀ r ∈ fs, r.mask = 0) : filters_wf fs = true := by
  cases fs with
  | nil => rfl
  | cons f fs =>
      have hf : f.mask = 0 := h f (by simp)
      simp only [filters_wf, hf, if_pos, List.all_eq_true, beq_iff_eq]
      exact fun r hr => h r (List.mem_cons_of_mem _ hr)

theorem stored_rules_nil : stored_rules [] = [] := rfl

theorem stored_rules_cons_free {f : ElmFilter} {fs : List ElmFilter} (hf : f.mask = 0) :
    stored_rules (f :: fs) = stored_rules fs := by
  simp [stored_rules, List.filter_cons, hf]

theorem stored_rules_cons_active {f : ElmFilter} {fs : List ElmFilter} (hf : ¬ f.mask = 0) :
    stored_rules (f :: fs) = f :: stored_rules fs := by
  simp [stored_rules, List.filter_cons, hf]

theorem stored_rules_of_all_free {fs : List ElmFilter}
    (h : ∀ r ∈ fs, r.mask = 0) : stored_rules fs = [] := by
  induction fs with
  | nil => rfl
  | cons f fs ih =>
      rw [stored_rules_cons_free (h f (by simp))]
      exact ih (fun r hr => h r (List.mem_cons_of_mem _ hr))

/-- On a well-formed table the early-stopping scan decides membership in the
stored rules. -/
theorem filter_scan_eq_any {fs : List ElmFilter} (id : Nat)
    (h : filters_wf fs = true) :
    filter_scan fs id = (stored_rules fs).any (fun r => elm_filter_match r id) := by
  induction fs with
  | nil => rfl
  | cons f fs ih =>
      by_cases hf : f.mask = 0
      · have hall := filters_wf_cons_free hf h
        rw [stored_rules_cons_free hf, stored_rules_of_all_free hall]
        simp [filter_scan, hf]
      · have hwf := filters_wf_cons_active hf h
        rw [stored_rules_cons_active hf]
        by_cases hm : elm_filter_match f id = true
        · simp [filter_scan, hf, hm]
        · simp only [Bool.not_eq_true] at hm
          simp [filter_scan, hf, hm, ih hwf]

/-- On a well-formed table the head-slot guard decides emptiness of the
stored rules. -/
theorem filter_head_active_eq {fs : List ElmFilter} (h : filters_wf fs = true) :
    filter_head_active fs = decide (stored_rules fs ≠ []) := by
  cases fs with
  | nil => simp [filter_head_active, stored_rules]
  | cons f fs =>
      by_cases hf : f.mask = 0
      · have hall := filters_wf_cons_free hf h
        rw [stored_rules_cons_free hf, stored_rules_of_all_free hall]
        simp [filter_head_active, hf]
      · rw [stored_rules_cons_active hf]
        simp [filter_head_active, hf]

theorem elm_filter_clear_all_free {fs : List ElmFilter} (h : filters_wf fs = true) :
    ∀ r ∈ elm_filter_clear fs, r.mask = 0 := by
  induction fs with
  | nil => simp [elm_filter_clear]
  | cons f fs ih =>
      by_cases hf : f.mask = 0
      · have hall := filters_wf_cons_free hf h
        rw [elm_filter_clear, if_pos hf]
        intro r hr
        rcases List.mem_cons.mp hr with hr | hr
        · exact hr ▸ hf
        · exact hall r hr
      · have hwf := filters_wf_cons_active hf h
        rw [elm_filter_clear, if_neg hf]
        intro r hr
        rcases List.mem_cons.mp hr with hr | hr
        · simp [hr]
        · exact ih hwf r hr

theorem elm_filter_clear_wf {fs : List ElmFilter} (h : filters_wf fs = true) :
    filters_wf (elm_filter_clear fs) = true :=
  filters_wf_of_all_free (elm_filter_clear_all_free h)

theorem elm_filter_clear_empty {fs : List ElmFilter} (h : filters_wf fs = true) :
    stored_rules (elm_filter_clear fs) = [] :=
  stored_rules_of_all_free (elm_filter_clear_all_free h)

theorem elm_filter_add_wf {fs fs' : List ElmFilter} {p m : Nat}
    (h : filters_wf fs = true) (hadd : elm_filter_add fs p m = some fs') :
    filters_wf fs' = true := by
  induction fs generalizing fs' with
  | nil => simp [elm_filter_add] at hadd
  | cons f fs ih =>
      by_cases hf : f.mask = 0
      · have hall := filters_wf_cons_free hf h
        rw [elm_filter_add, if_pos hf] at hadd
        obtain rfl : (⟨p, m⟩ : ElmFilter) :: fs = fs' := Option.some.inj hadd
        by_cases hm : m = 0
        · exact filters_wf_of_all_free (by
            intro r hr
            rcases List.mem_cons.mp hr with hr | hr
            · simp [hr, hm]
            · exact hall r hr)
        · have hfs := filters_wf_of_all_free hall
          simpa [filters_wf, hm] using hfs
      · have hwf := filters_wf_cons_active hf h
        rw [elm_filter_add, if_neg hf] at hadd
        cases hgo : elm_filter_add fs p m with
        | none => rw [hgo] at hadd; exact absurd hadd (by simp)
        | some gs =>
            rw [hgo] at hadd
            obtain rfl : f :: gs = fs' := Option.some.inj hadd
            simpa [filters_wf, hf] using ih hwf hgo

-- ===========================  SessionConfig (elm.c)  ===========================

/-- `elm_globals_t`: the per-session mutable state of the command interpreter.
`elm_device_identifier` is a `char*` that starts as `NULL` (the globals struct
is `memset` to 0 on session start), hence `Option String` here. The two ST
filter tables are the fixed 100-slot arrays, as lists. -/
structure ElmGlobals where
  elm_echo : Bool
  elm_linefeed : Bool
  elm_headers : Bool
  elm_spaces : Bool
  elm_dlc : Bool
  elm_timeout : Nat
  elm_device_identifier : Option String
  elm_previous_cmd : List Char
  elm_memory : Bool
  elm_adaptive : Nat
  elm_can_auto_format : Bool
  elm_can_flow_control : Bool
  elm_can_silent_mode : Bool
  elm_long_message : Bool
  elm_protocol : Char
  elm_protocol_auto : Bool
  elm_monitor : Bool
  elm_filter : ElmFilter
  pass_filter : List ElmFilter
  block_filter : List ElmFilter
deriving DecidableEq, Repr

-- The documented defaults (the #define block of elm.c).
def ELM_VERSION_STRING : String := "ELM327 v1.3a Teslap"
def ST_VERSION_STRING : String := "STN1110 r0.1 Teslap"
def ELM_DEVICE_STRING : String := "Espnux"
def ELM_PROMPT : String := ">"
def ELM_HEADERS : Bool := true
def ELM_SPACES : Bool := true
def ELM_ECHO : Bool := true
def ELM_LINEFEED : Bool := true
def ELM_MEMORY : Bool := true
def ELM_TIMEOUT : Nat := 5000
def ELM_ADAPTIVETIMING : Nat := 1
def ELM_DISPLAYDLC : Bool := false
def ELM_CAN_AUTO_FORMAT : Bool := false
def ELM_CAN_FLOW_CONTROL : Bool := true
def ELM_CAN_SILENT_MODE : Bool := true
def ELM_LONG_MESSAGE : Bool := false
def ELM_DEFAULT_PROTOCOL : Char := '0'
def ELM_QUERY_PROMPT : String := "?"
def ELM_OK_PROMPT : String := "OK"
def ELM_ERROR_PROMPT : String := "ERROR"
def ELM_NODATA_PROMPT : String := "NO DATA"

/-- `ELM_NEWLINE`: CRLF when linefeed is enabled, CR otherwise. -/
def ELM_NEWLINE (g : ElmGlobals) : String :=
  if g.elm_linefeed then "\r\n" else "\r"

/-- `ELM_SPACE`: one space when spaces are enabled, nothing otherwise. -/
def ELM_SPACE (g : ElmGlobals) : String :=
  if g.elm_spaces then " " else ""

/-- `elm_reset`: restore the session state to the documented defaults.
Note: the C function does not touch `elm_device_identifier`. -/
def elm_reset (g : ElmGlobals) : ElmGlobals :=
  { g with
    elm_echo := ELM_ECHO
    elm_linefeed := ELM_LINEFEED
    elm_headers := ELM_HEADERS
    elm_spaces := ELM_SPACES
    elm_dlc := ELM_DISPLAYDLC
    elm_timeout := ELM_TIMEOUT
    elm_previous_cmd := []
    elm_memory := ELM_MEMORY
    elm_adaptive := ELM_ADAPTIVETIMING
    elm_can_auto_format := ELM_CAN_AUTO_FORMAT
    elm_can_flow_control := ELM_CAN_FLOW_CONTROL
    elm_can_silent_mode := ELM_CAN_SILENT_MODE
    elm_long_message := ELM_LONG_MESSAGE
    elm_protocol := ELM_DEFAULT_PROTOCOL
    elm_protocol_auto := true
    elm_monitor := false
    elm_filter := ⟨0, 0⟩
    pass_filter := elm_filter_clear g.pass_filter
    block_filter := elm_filter_clear g.block_filter }

/-- The session state right after `elm_do` initialises its globals
(`memset` to 0 followed by `elm_reset`): every field at its default and the
device identifier `NULL`. -/
def elm_initial : ElmGlobals :=
  elm_reset
    { elm_echo := false, elm_linefeed := false, elm_headers := false
      elm_spaces := false, elm_dlc := false, elm_timeout := 0
      elm_device_identifier := none, elm_previous_cmd := []
      elm_memory := false, elm_adaptive := 0, elm_can_auto_format := false
      elm_can_flow_control := false, elm_can_silent_mode := false
      elm_long_message := false, elm_protocol := Char.ofNat 0
      elm_protocol_auto := false, elm_monitor := false
      elm_filter := ⟨0, 0⟩
      pass_filter := List.replicate ELM_ST_FILTER_LEN ⟨0, 0⟩
      block_filter := List.replicate ELM_ST_FILTER_LEN ⟨0, 0⟩ }

/-- `elm_filter_test`: the two-stage filter decision. The timestamp argument
`us` is taken (as in C) but unused; the function reads the session state and
never writes it. -/
def elm_filter_test (g : ElmGlobals) (id : Nat) (us : Nat) : Bool :=
  if id = 0 then false
  else if ¬ ((id &&& g.elm_filter.mask) = (g.elm_filter.pattern &&& g.elm_filter.mask)) then false
  else
    let ok := if filter_head_active g.pass_filter then filter_scan g.pass_filter id else true
    if ok && filter_head_active g.block_filter then !(filter_scan g.block_filter id) else ok

-- ---------------------------  Claim C1  ---------------------------

/-- C1: for every session state whose filter tables are well formed (as all
reachable tables are) and every frame identifier, `elm_filter_test` returns
true iff the identifier is nonzero, matches the single AT rule under its
mask, matches some stored pass rule whenever the pass table is non-empty,
and matches no stored block rule whenever the block table is non-empty. The
function is pure: it is a `def` from state to `Bool` and mutates nothing. -/
theorem elm_filter_test_spec (g : ElmGlobals) (id us : Nat)
    (hp : filters_wf g.pass_filter = true) (hb : filters_wf g.block_filter = true) :
    elm_filter_test g id us = true ↔
      id ≠ 0 ∧
      (id &&& g.elm_filter.mask) = (g.elm_filter.pattern &&& g.elm_filter.mask) ∧
      (stored_rules g.pass_filter = [] ∨
        ∃ r ∈ stored_rules g.pass_filter, elm_filter_match r id = true) ∧
      ¬ (stored_rules g.block_filter ≠ [] ∧
        ∃ r ∈ stored_rules g.block_filter, elm_filter_match r id = true) := by
  unfold elm_filter_test
  rw [filter_head_active_eq hp, filter_head_active_eq hb,
    filter_scan_eq_any id hp, filter_scan_eq_any id hb]
  by_cases h0 : id = 0
  · simp [h0]
  · by_cases hat : (id &&& g.elm_filter.mask) = (g.elm_filter.pattern &&& g.elm_filter.mask)
    · by_cases hpnil : stored_rules g.pass_filter = [] <;>
        by_cases hbnil : stored_rules g.block_filter = [] <;>
        simp [h0, hat, hpnil, hbnil, List.any_eq_true]
    · simp [h0, hat]

/-- Closed witness for C1 at a concrete session state and identifier. -/
theorem elm_filter_test_spec_witness :
    filters_wf elm_initial.pass_filter = true ∧
    filters_wf elm_initial.block_filter = true ∧
    (elm_filter_test elm_initial 0x7E8 0 = true ↔
      (0x7E8 : Nat) ≠ 0 ∧
      ((0x7E8 : Nat) &&& elm_initial.elm_filter.mask) =
        (elm_initial.elm_filter.pattern &&& elm_initial.elm_filter.mask) ∧
      (stored_rules elm_initial.pass_filter = [] ∨
        ∃ r ∈ stored_rules elm_initial.pass_filter, elm_filter_match r 0x7E8 = true) ∧
      ¬ (stored_rules elm_initial.block_filter ≠ [] ∧
        ∃ r ∈ stored_rules elm_initial.block_filter, elm_filter_match r 0x7E8 = true)) :=
  ⟨by decide, by decide, elm_filter_test_spec elm_initial 0x7E8 0 (by decide) (by decide)⟩

-- ---------------------------  Claim C10  ---------------------------

/-- C10: occupied rules always form a contiguous front segment of the filter
tables.  Clearing a well-formed table leaves a well-formed table with no
stored rules; adding preserves well-formedness; a session reset leaves both
tables well formed and empty; and on a well-formed table the early-stopping
scan of `elm_filter_test` sees exactly the stored rules. -/
theorem filter_tables_invariant (fs : List ElmFilter) (p m id : Nat)
    (h : filters_wf fs = true) :
    filters_wf (elm_filter_clear fs) = true ∧
    stored_rules (elm_filter_clear fs) = [] ∧
    (∀ fs', elm_filter_add fs p m = some fs' → filters_wf fs' = true) ∧
    filter_scan fs id = (stored_rules fs).any (fun r => elm_filter_match r id) ∧
    (∀ g : ElmGlobals, g.pass_filter = fs →
      filters_wf (elm_reset g).pass_filter = true ∧
      stored_rules (elm_reset g).pass_filter = []) :=
  ⟨elm_filter_clear_wf h, elm_filter_clear_empty h,
   fun _ hadd => elm_filter_add_wf h hadd,
   filter_scan_eq_any id h,
   fun g hg => by
     constructor
     · show filters_wf (elm_filter_clear g.pass_filter) = true
       rw [hg]; exact elm_filter_clear_wf h
     · show stored_rules (elm_filter_clear g.pass_filter) = []
       rw [hg]; exact elm_filter_clear_empty h⟩

/-- Closed witness for C10 at a concrete two-rule table. -/
theorem filter_tables_invariant_witness :
    filters_wf [⟨0x7E8, 0x7FF⟩, ⟨0, 0⟩, ⟨0, 0⟩] = true ∧
    (filters_wf (elm_filter_clear [⟨0x7E8, 0x7FF⟩, ⟨0, 0⟩, ⟨0, 0⟩]) = true ∧
      stored_rules (elm_filter_clear [⟨0x7E8, 0x7FF⟩, ⟨0, 0⟩, ⟨0, 0⟩]) = [] ∧
      (∀ fs', elm_filter_add [⟨0x7E8, 0x7FF⟩, ⟨0, 0⟩, ⟨0, 0⟩] 0x123 0x7FF = some fs' →
        filters_wf fs' = true) ∧
      filter_scan [⟨0x7E8, 0x7FF⟩, ⟨0, 0⟩, ⟨0, 0⟩] 0x7E8 =
        (stored_rules [⟨0x7E8, 0x7FF⟩, ⟨0, 0⟩, ⟨0, 0⟩]).any
          (fun r => elm_filter_match r 0x7E8) ∧
      (∀ g : ElmGlobals, g.pass_filter = [⟨0x7E8, 0x7FF⟩, ⟨0, 0⟩, ⟨0, 0⟩] →
        filters_wf (elm_reset g).pass_filter = true ∧
        stored_rules (elm_reset g).pass_filter = [])) :=
  ⟨by decide, filter_tables_invariant [⟨0x7E8, 0x7FF⟩, ⟨0, 0⟩, ⟨0, 0⟩] 0x123 0x7FF 0x7E8 (by decide)⟩

-- ===========================  BusIngestor (can.c)  ===========================

/-- 2^32: modulus for the `uint32_t` arithmetic of the C sources. -/
def U32 : Nat := 4294967296

/-- `uint32_t` subtraction `a - b` (wrapping), for operands below `U32`. -/
def sub32 (a b : Nat) : Nat := (U32 + a - b) % U32

/-- `can_message_t`: identifier, DLC and payload of a bus frame. -/
structure CanMessage where
  identifier : Nat
  data_length_code : Nat
  data : List Nat
deriving DecidableEq, Repr

/-- `can_message_timestamp_t`: a frame plus its capture timestamp (µs). -/
structure CanMessageTimestamp where
  msg : CanMessage
  timestamp : Nat
deriving DecidableEq, Repr

/-- `VEHICLEBUS_ID`: the fixed allow-list of frame identifiers (`can_id`). -/
def can_id : List Nat := [
    0x00C, 0x04F, 0x082, 0x102, 0x103, 0x108, 0x118, 0x123, 0x126, 0x129,
    0x132, 0x13D, 0x142, 0x154, 0x186, 0x1A5, 0x1D4, 0x1D5, 0x1D8, 0x201,
    0x20A, 0x20C, 0x212, 0x214, 0x215, 0x217, 0x21D, 0x221, 0x224, 0x228,
    0x229, 0x22E, 0x23D, 0x241, 0x243, 0x244, 0x247, 0x249, 0x252, 0x257,
    0x25D, 0x261, 0x263, 0x264, 0x266, 0x267, 0x268, 0x281, 0x282, 0x284,
    0x287, 0x288, 0x292, 0x293, 0x29D, 0x2A8, 0x2B3, 0x2B4, 0x2B6, 0x2C1,
    0x2C4, 0x2D2, 0x2E1, 0x2E5, 0x2F1, 0x2F3, 0x300, 0x301, 0x309, 0x312,
    0x313, 0x315, 0x318, 0x31C, 0x31D, 0x320, 0x321, 0x32C, 0x332, 0x333,
    0x334, 0x335, 0x336, 0x33A, 0x352, 0x376, 0x381, 0x383, 0x393, 0x395,
    0x396, 0x399, 0x3A1, 0x3B2, 0x3B3, 0x3B6, 0x3BB, 0x3C2, 0x3C3, 0x3D2,
    0x3D8, 0x3D9, 0x3E2, 0x3E3, 0x3E9, 0x3F2, 0x3F5, 0x3FE, 0x401, 0x405,
    0x42A, 0x43D, 0x51E, 0x528, 0x541, 0x556, 0x557, 0x5D5, 0x5D7, 0x628,
    0x629, 0x656, 0x743, 0x757, 0x75D, 0x7AA, 0x7D5, 0x7FF]

/-- `can_id_delay_us = 1000000 / 11`: minimum µs between two forwarded
frames of the same identifier. -/
def can_id_delay_us : Nat := 1000000 / 11

/-- The loop body of `_can_filter_id` over the parallel arrays `can_id` /
`can_id_last_us`: find the identifier, test the elapsed interval, update the
last-forwarded timestamp exactly when the frame is forwarded. -/
def can_filter_go : List Nat → List Nat → Nat → Nat → Bool × List Nat
  | [], last, _, _ => (false, last)
  | _ :: _, [], _, _ => (false, [])
  | cid :: cids, l :: ls, id, ts =>
      if id = cid then
        if can_id_delay_us ≤ sub32 ts l then (true, ts :: ls) else (false, l :: ls)
      else
        let r := can_filter_go cids ls id ts
        (r.1, l :: r.2)

/-- `_can_filter_id`: the allow-list plus rate-limit gate; `last` is the
`can_id_last_us` array, the result pairs the forwarding decision with the
updated array. -/
def _can_filter_id (last : List Nat) (id ts : Nat) : Bool × List Nat :=
  can_filter_go can_id last id ts

/-- A subscription ringbuffer (`can_ringbuf_new(itemNum)`): a bounded FIFO
of frames. -/
structure CanRingbuf where
  itemNum : Nat
  items : List CanMessageTimestamp
deriving DecidableEq, Repr

/-- `xRingbufferSend` on a no-split item ringbuffer with zero wait: append
when there is room, otherwise drop the frame for this buffer only. -/
def ringbuf_send (rb : CanRingbuf) (m : CanMessageTimestamp) : CanRingbuf :=
  if rb.items.length < rb.itemNum then { rb with items := rb.items ++ [m] } else rb

/-- `_can_raise`: push the frame into every live subscription slot. -/
def _can_raise (subs : List (Option CanRingbuf)) (m : CanMessageTimestamp) :
    List (Option CanRingbuf) :=
  subs.map (fun s => s.map (fun rb => ringbuf_send rb m))

/-- The receive-path body of `can_task`: gate the frame through
`_can_filter_id` (with the timestamp truncated to `uint32_t`, as in C) and
fan it out to the subscriptions exactly when the gate passes. -/
def can_ingest (last : List Nat) (subs : List (Option CanRingbuf))
    (msg : CanMessage) (ts : Nat) :
    Bool × List Nat × List (Option CanRingbuf) :=
  let r := _can_filter_id last msg.identifier (ts % U32)
  if r.1 then (true, r.2, _can_raise subs ⟨msg, ts⟩) else (false, r.2, subs)

/-- The `can_id_last_us` entry associated with `id` (first match, as the C
loop scans). -/
def can_last_of : List Nat → List Nat → Nat → Option Nat
  | [], _, _ => none
  | _ :: _, [], _ => none
  | cid :: cids, l :: ls, id =>
      if id = cid then some l else can_last_of cids ls id

theorem can_filter_go_not_mem {cids ls : List Nat} {id : Nat} (ts : Nat)
    (h : id ∉ cids) : can_filter_go cids ls id ts = (false, ls) := by
  induction cids generalizing ls with
  | nil => cases ls <;> rfl
  | cons c cs ih =>
      cases ls with
      | nil => rfl
      | cons l ls =>
          have hne : id ≠ c := fun hc => h (hc ▸ List.mem_cons_self c cs)
          have hnm : id ∉ cs := fun hc => h (List.mem_cons_of_mem c hc)
          simp [can_filter_go, hne, ih hnm]

theorem can_filter_go_fwd_iff (cids ls : List Nat) (id ts : Nat) :
    (can_filter_go cids ls id ts).1 = true ↔
      ∃ l, can_last_of cids ls id = some l ∧ can_id_delay_us ≤ sub32 ts l := by
  induction cids generalizing ls with
  | nil => simp [can_filter_go, can_last_of]
  | cons c cs ih =>
      cases ls with
      | nil => simp [can_filter_go, can_last_of]
      | cons l ls =>
          by_cases hc : id = c
          · by_cases hd : can_id_delay_us ≤ sub32 ts l
            · simp [can_filter_go, can_last_of, hc, hd]
            · simp [can_filter_go, can_last_of, hc, hd]
          · simp [can_filter_go, can_last_of, hc, ih]

theorem can_filter_go_drop {cids ls : List Nat} {id ts : Nat}
    (h : (can_filter_go cids ls id ts).1 = false) :
    (can_filter_go cids ls id ts).2 = ls := by
  induction cids generalizing ls with
  | nil => cases ls <;> rfl
  | cons c cs ih =>
      cases ls with
      | nil => rfl
      | cons l ls =>
          by_cases hc : id = c
          · by_cases hd : can_id_delay_us ≤ sub32 ts l
            · simp [can_filter_go, hc, hd] at h
            · simp [can_filter_go, hc, hd]
          · simp only [can_filter_go, hc, if_neg, if_false] at h ⊢
            simp [ih h]

theorem can_filter_go_update {cids ls ls' : List Nat} {id ts : Nat}
    (h : can_filter_go cids ls id ts = (true, ls')) :
    can_last_of cids ls' id = some ts ∧
      ∀ j, j ≠ id → can_last_of cids ls' j = can_last_of cids ls j := by
  induction cids generalizing ls ls' with
  | nil =>
      cases ls <;> simp [can_filter_go] at h
  | cons c cs ih =>
      cases ls with
      | nil => simp [can_filter_go] at h
      | cons l ls =>
          by_cases hc : id = c
          · by_cases hd : can_id_delay_us ≤ sub32 ts l
            · simp only [can_filter_go, hc, if_pos, hd, Prod.mk.injEq, true_and] at h
              subst h
              refine ⟨by simp [can_last_of, hc], fun j hj => ?_⟩
              have hjc : j ≠ c := hc ▸ hj
              simp [can_last_of, hjc]
            · simp [can_filter_go, hc, hd] at h
          · simp only [can_filter_go, hc, if_neg, if_false, Prod.mk.injEq] at h
            obtain ⟨h1, h2⟩ := h
            cases hgo : can_filter_go cs ls id ts with
            | mk b tl =>
                rw [hgo] at h1 h2
                simp only at h1 h2
                subst h1
                subst h2
                obtain ⟨ga, gb⟩ := ih hgo
                refine ⟨by simp [can_last_of, hc, ga], fun j hj => ?_⟩
                by_cases hjc : j = c
                · simp [can_last_of, hjc]
                · simp [can_last_of, hjc, gb j hj]

theorem sub32_shift {t dlt : Nat} (ht : t < U32) (hd : dlt < U32) :
    sub32 ((t + dlt) % U32) t = dlt := by
  unfold sub32 U32 at *
  omega

-- ---------------------------  Claim C2  ---------------------------

/-- C2: ingestion forwards a frame iff its identifier is in the fixed
allow-list and at least `can_id_delay_us = 1000000/11` µs have elapsed
(in wrapping 32-bit time) since the last forwarded frame of that
identifier; the per-identifier timestamp is updated exactly on forwarding;
two frames of an allow-listed identifier at times `t` and `t+Δ`, the first
forwarded, are both forwarded iff `Δ ≥ 90909`; an identifier outside the
allow-list is never forwarded and leaves rate-limit state and
subscriptions untouched. -/
theorem can_ingest_rate_limit (last last' : List Nat) (id t dlt : Nat)
    (ht : t < U32) (hd : dlt < U32) :
    can_id_delay_us = 90909 ∧
    (∀ subs msg ts, msg.identifier ∉ can_id →
      can_ingest last subs msg ts = (false, last, subs)) ∧
    ((_can_filter_id last id t).1 = true ↔
      ∃ l, can_last_of can_id last id = some l ∧ can_id_delay_us ≤ sub32 t l) ∧
    (_can_filter_id last id t = (true, last') →
      can_last_of can_id last' id = some t ∧
      ∀ j, j ≠ id → can_last_of can_id last' j = can_last_of can_id last j) ∧
    ((_can_filter_id last id t).1 = false → (_can_filter_id last id t).2 = last) ∧
    (_can_filter_id last id t = (true, last') →
      ((_can_filter_id last' id ((t + dlt) % U32)).1 = true ↔
        can_id_delay_us ≤ dlt)) := by
  refine ⟨rfl, ?_, can_filter_go_fwd_iff can_id last id t,
    fun h => can_filter_go_update h, fun h => can_filter_go_drop h, fun h => ?_⟩
  · intro subs msg ts hmem
    unfold can_ingest _can_filter_id
    rw [can_filter_go_not_mem (ts % U32) hmem]
    simp
  · have hup := can_filter_go_update h
    rw [_can_filter_id, can_filter_go_fwd_iff]
    constructor
    · intro hx
      obtain ⟨l, hl, hdl⟩ := hx
      rw [hup.1] at hl
      obtain rfl : t = l := Option.some.inj hl
      rwa [sub32_shift ht hd] at hdl
    · intro hdl
      exact ⟨t, hup.1, by rwa [sub32_shift ht hd]⟩

/-- Closed witness for C2: identifier `0x132` (allow-listed), first frame at
t = 1000000 µs from the startup state, second frame Δ = 90909 µs later. -/
theorem can_ingest_rate_limit_witness :
    (1000000 : Nat) < U32 ∧ (90909 : Nat) < U32 ∧
    (can_id_delay_us = 90909 ∧
      (∀ subs msg ts, msg.identifier ∉ can_id →
        can_ingest (List.replicate 128 0) subs msg ts =
          (false, List.replicate 128 0, subs)) ∧
      ((_can_filter_id (List.replicate 128 0) 0x132 1000000).1 = true ↔
        ∃ l, can_last_of can_id (List.replicate 128 0) 0x132 = some l ∧
          can_id_delay_us ≤ sub32 1000000 l) ∧
      (_can_filter_id (List.replicate 128 0) 0x132 1000000 =
          (true, (_can_filter_id (List.replicate 128 0) 0x132 1000000).2) →
        can_last_of can_id (_can_filter_id (List.replicate 128 0) 0x132 1000000).2 0x132 =
            some 1000000 ∧
        ∀ j, j ≠ 0x132 →
          can_last_of can_id (_can_filter_id (List.replicate 128 0) 0x132 1000000).2 j =
            can_last_of can_id (List.replicate 128 0) j) ∧
      ((_can_filter_id (List.replicate 128 0) 0x132 1000000).1 = false →
        (_can_filter_id (List.replicate 128 0) 0x132 1000000).2 = List.replicate 128 0) ∧
      (_can_filter_id (List.replicate 128 0) 0x132 1000000 =
          (true, (_can_filter_id (List.replicate 128 0) 0x132 1000000).2) →
        ((_can_filter_id (_can_filter_id (List.replicate 128 0) 0x132 1000000).2 0x132
            ((1000000 + 90909) % U32)).1 = true ↔
          can_id_delay_us ≤ 90909))) :=
  ⟨by decide, by decide,
    can_ingest_rate_limit (List.replicate 128 0)
      (_can_filter_id (List.replicate 128 0) 0x132 1000000).2 0x132 1000000 90909
      (by decide) (by decide)⟩

-- ===========================  BufferedTransport (bt.c)  ===========================

def BT_SPP_RINGBUF_RX_SIZE : Nat := 100
def BT_SPP_RINGBUF_TX_SIZE : Nat := 10 * 1024

/-- `BT_SPP_DATA_MAX_SIZE = ESP_SPP_MAX_MTU = 3 * 330`: largest chunk popped
from the transmit ring per physical send. -/
def BT_SPP_DATA_MAX_SIZE : Nat := 3 * 330

/-- The static globals of bt.c that carry the transport state.  The two
byte rings are byte lists bounded by their capacities; `spp_tx_handed`
records, in order, every chunk handed to the physical send primitive
`esp_spp_write`, and `spp_drain_attempts` counts the entries into the
drain routine `_write` — they stand for the externally observable calls the
C code makes.  The throughput statistics fields of the C file (`spp_size`,
`spp_stat_us`, the minimum-free trackers), which only feed log lines, are
not modelled. -/
structure BtState where
  spp_handle : Nat
  spp_rx_buffer : List Nat
  spp_tx_buffer : List Nat
  spp_writing : Bool
  spp_second_connexion : Bool
  spp_last_us : Nat
  spp_tx_handed : List (List Nat)
  spp_drain_attempts : Nat
deriving DecidableEq, Repr

/-- Events the transport layer raises towards the link stack / client. -/
inductive BtEvent where
  | disconnect (handle : Nat)
  | openCb (handle : Nat)
  | closeCb (handle : Nat)
deriving DecidableEq, Repr

/-- `_write`: one drain attempt.  Pop up to `BT_SPP_DATA_MAX_SIZE` bytes
from the transmit ring; if data was obtained hand it to `esp_spp_write`
(`sendOk` is that call's result) and on success record the time; if the
ring yields nothing clear the in-flight flag.  `now` is
`esp_timer_get_time()` truncated to `uint32_t` on assignment. -/
def _write (s : BtState) (handle now : Nat) (sendOk : Bool) : BtState :=
  if handle ≠ s.spp_handle then s
  else
    let s := { s with spp_drain_attempts := s.spp_drain_attempts + 1 }
    if s.spp_tx_buffer = [] then { s with spp_writing := false }
    else
      let chunk := s.spp_tx_buffer.take BT_SPP_DATA_MAX_SIZE
      let s := { s with
        spp_tx_buffer := s.spp_tx_buffer.drop BT_SPP_DATA_MAX_SIZE,
        spp_tx_handed := s.spp_tx_handed ++ [chunk] }
      if sendOk then { s with spp_last_us := now % U32 } else s

/-- The `if (!spp_writing) { spp_writing = true; _write(handle); }` block
that bt_write runs both on the full-ring recovery path and after a
successful enqueue. -/
def bt_write_trigger (t : BtState) (handle now : Nat) (sendOk : Bool) : BtState :=
  if ¬ t.spp_writing then _write { t with spp_writing := true } handle now sendOk
  else t

/-- `bt_write`: non-blocking enqueue into the transmit ring, with the two
anti-stall recovery paths on a full ring.  Returns the C return value
(`count`, `0`, or `-1` on handle mismatch).  The stall comparison
`esp_timer_get_time() - spp_last_us > 5*1000000` is 64-bit in C (the
`uint32_t` last-send time is widened), hence plain subtraction on `now`
here. -/
def bt_write (s : BtState) (handle : Nat) (buf : List Nat) (now : Nat)
    (sendOk : Bool) : BtState × Int :=
  if buf = [] then (s, 0)
  else if handle ≠ s.spp_handle then (s, -1)
  else if BT_SPP_RINGBUF_TX_SIZE < s.spp_tx_buffer.length + buf.length then
    (bt_write_trigger
      (if s.spp_writing ∧ 5 * 1000000 < now - s.spp_last_us
        then _write s handle now sendOk else s) handle now sendOk, 0)
  else
    (bt_write_trigger { s with spp_tx_buffer := s.spp_tx_buffer ++ buf }
      handle now sendOk, (buf.length : Int))

/-- `_open`: reject a second concurrent connection while one is active;
otherwise allocate the rings (`rxOk`/`txOk` model the two allocations),
install the transport state and fire the open callback. -/
def _open (s : BtState) (handle : Nat) (rxOk txOk : Bool) :
    BtState × List BtEvent :=
  if s.spp_handle ≠ 0 then
    ({ s with spp_second_connexion := true }, [BtEvent.disconnect handle])
  else if ¬ (rxOk ∧ txOk) then
    ({ s with spp_handle := 0, spp_rx_buffer := [], spp_tx_buffer := [] }, [])
  else
    ({ s with
        spp_handle := handle
        spp_rx_buffer := []
        spp_tx_buffer := []
        spp_writing := false }, [BtEvent.openCb handle])

/-- All bytes ever accepted by the transport, in order: chunks already
handed to the physical send primitive, then the transmit-ring content. -/
def bt_tx_stream (s : BtState) : List Nat :=
  s.spp_tx_handed.flatten ++ s.spp_tx_buffer

theorem bt_tx_stream_write {s : BtState} (handle now : Nat) (sendOk : Bool) :
    bt_tx_stream (_write s handle now sendOk) = bt_tx_stream s := by
  unfold _write
  by_cases hh : handle ≠ s.spp_handle
  · simp [hh]
  · by_cases he : s.spp_tx_buffer = []
    · simp [hh, he, bt_tx_stream]
    · cases sendOk <;>
        simp [hh, he, bt_tx_stream, List.flatten_append, List.take_append_drop]

theorem _write_writing_of_nonempty {s : BtState} {handle now : Nat} {sendOk : Bool}
    (hh : handle = s.spp_handle) (hne : s.spp_tx_buffer ≠ []) :
    (_write s handle now sendOk).spp_writing = s.spp_writing := by
  unfold _write
  cases sendOk <;> simp [hh, hne]

theorem _write_drains {s : BtState} {handle now : Nat} {sendOk : Bool}
    (hh : handle = s.spp_handle) :
    (_write s handle now sendOk).spp_drain_attempts = s.spp_drain_attempts + 1 := by
  unfold _write
  by_cases he : s.spp_tx_buffer = [] <;> cases sendOk <;> simp [hh, he]

theorem bt_tx_stream_trigger (t : BtState) (h now : Nat) (ok : Bool) :
    bt_tx_stream (bt_write_trigger t h now ok) = bt_tx_stream t := by
  unfold bt_write_trigger
  by_cases hw : t.spp_writing = true
  · simp [hw]
  · rw [if_pos (by simp [hw])]
    exact bt_tx_stream_write h now ok

theorem bt_write_trigger_of_writing {t : BtState} (h now : Nat) (ok : Bool)
    (hw : t.spp_writing = true) : bt_write_trigger t h now ok = t := by
  unfold bt_write_trigger
  rw [if_neg (by simp [hw])]

theorem bt_write_trigger_of_idle {t : BtState} (h now : Nat) (ok : Bool)
    (hw : t.spp_writing = false) :
    bt_write_trigger t h now ok = _write { t with spp_writing := true } h now ok := by
  unfold bt_write_trigger
  rw [if_pos (by simp [hw])]

-- ---------------------------  Claim C5  ---------------------------

/-- C5: with an open connection and a non-empty buffer, `bt_write` either
accepts the whole buffer into the transmit stream and returns its length,
or accepts nothing and returns 0; it returns 0 exactly when the transmit
ring lacks room for the buffer, and never accepts a proper prefix. -/
theorem bt_write_all_or_nothing (s : BtState) (buf : List Nat) (now : Nat)
    (sendOk : Bool) (h0 : s.spp_handle ≠ 0) (hb : buf ≠ []) :
    ((bt_write s s.spp_handle buf now sendOk).2 = (buf.length : Int) ∨
      (bt_write s s.spp_handle buf now sendOk).2 = 0) ∧
    ((bt_write s s.spp_handle buf now sendOk).2 = 0 ↔
      BT_SPP_RINGBUF_TX_SIZE < s.spp_tx_buffer.length + buf.length) ∧
    ((bt_write s s.spp_handle buf now sendOk).2 = (buf.length : Int) →
      bt_tx_stream (bt_write s s.spp_handle buf now sendOk).1 =
        bt_tx_stream s ++ buf) ∧
    ((bt_write s s.spp_handle buf now sendOk).2 = 0 →
      bt_tx_stream (bt_write s s.spp_handle buf now sendOk).1 = bt_tx_stream s) := by
  have hlen : (buf.length : Int) ≠ 0 := by
    simpa using fun hx => hb (List.length_eq_zero.mp hx)
  have hh : ¬ s.spp_handle ≠ s.spp_handle := by simp
  by_cases hroom : BT_SPP_RINGBUF_TX_SIZE < s.spp_tx_buffer.length + buf.length
  · have e : bt_write s s.spp_handle buf now sendOk =
        (bt_write_trigger
          (if s.spp_writing ∧ 5 * 1000000 < now - s.spp_last_us
            then _write s s.spp_handle now sendOk else s) s.spp_handle now sendOk, 0) := by
      unfold bt_write
      rw [if_neg hb, if_neg hh, if_pos hroom]
    rw [e]
    refine ⟨Or.inr rfl, iff_of_true rfl hroom, fun hx => absurd hx.symm hlen, fun _ => ?_⟩
    rw [show ((bt_write_trigger
        (if s.spp_writing ∧ 5 * 1000000 < now - s.spp_last_us
          then _write s s.spp_handle now sendOk else s) s.spp_handle now sendOk, (0 : Int))).1 =
        bt_write_trigger
          (if s.spp_writing ∧ 5 * 1000000 < now - s.spp_last_us
            then _write s s.spp_handle now sendOk else s) s.spp_handle now sendOk from rfl]
    rw [bt_tx_stream_trigger]
    by_cases hc : s.spp_writing ∧ 5 * 1000000 < now - s.spp_last_us
    · rw [if_pos hc, bt_tx_stream_write]
    · rw [if_neg hc]
  · have e : bt_write s s.spp_handle buf now sendOk =
        (bt_write_trigger { s with spp_tx_buffer := s.spp_tx_buffer ++ buf }
          s.spp_handle now sendOk, (buf.length : Int)) := by
      unfold bt_write
      rw [if_neg hb, if_neg hh, if_neg hroom]
    rw [e]
    refine ⟨Or.inl rfl, iff_of_false (by simpa using hlen) hroom, fun _ => ?_,
      fun hx => absurd hx hlen⟩
    rw [show ((bt_write_trigger { s with spp_tx_buffer := s.spp_tx_buffer ++ buf }
        s.spp_handle now sendOk, (buf.length : Int))).1 =
        bt_write_trigger { s with spp_tx_buffer := s.spp_tx_buffer ++ buf }
          s.spp_handle now sendOk from rfl]
    rw [bt_tx_stream_trigger]
    simp [bt_tx_stream]

/-- Closed witness for C5: open handle 7, three queued bytes, two more
written into a ring with room. -/
theorem bt_write_all_or_nothing_witness :
    (⟨7, [], [1, 2, 3], true, false, 0, [], 0⟩ : BtState).spp_handle ≠ 0 ∧
    ([4, 5] : List Nat) ≠ [] ∧
    (((bt_write ⟨7, [], [1, 2, 3], true, false, 0, [], 0⟩ 7 [4, 5] 0 true).2 =
        (([4, 5] : List Nat).length : Int) ∨
      (bt_write ⟨7, [], [1, 2, 3], true, false, 0, [], 0⟩ 7 [4, 5] 0 true).2 = 0) ∧
    ((bt_write ⟨7, [], [1, 2, 3], true, false, 0, [], 0⟩ 7 [4, 5] 0 true).2 = 0 ↔
      BT_SPP_RINGBUF_TX_SIZE <
        (⟨7, [], [1, 2, 3], true, false, 0, [], 0⟩ : BtState).spp_tx_buffer.length +
          ([4, 5] : List Nat).length) ∧
    ((bt_write ⟨7, [], [1, 2, 3], true, false, 0, [], 0⟩ 7 [4, 5] 0 true).2 =
        (([4, 5] : List Nat).length : Int) →
      bt_tx_stream (bt_write ⟨7, [], [1, 2, 3], true, false, 0, [], 0⟩ 7 [4, 5] 0 true).1 =
        bt_tx_stream ⟨7, [], [1, 2, 3], true, false, 0, [], 0⟩ ++ [4, 5]) ∧
    ((bt_write ⟨7, [], [1, 2, 3], true, false, 0, [], 0⟩ 7 [4, 5] 0 true).2 = 0 →
      bt_tx_stream (bt_write ⟨7, [], [1, 2, 3], true, false, 0, [], 0⟩ 7 [4, 5] 0 true).1 =
        bt_tx_stream ⟨7, [], [1, 2, 3], true, false, 0, [], 0⟩)) :=
  ⟨by decide, by decide,
    bt_write_all_or_nothing ⟨7, [], [1, 2, 3], true, false, 0, [], 0⟩ [4, 5] 0 true
      (by decide) (by decide)⟩

-- ---------------------------  Claim C7  ---------------------------

/-- C7: when `bt_write` finds the transmit ring full (with data queued):
the call returns 0; if a drain was believed in-flight and more than 5 s
passed since the last successful send, one forced drain attempt happens;
if no drain was believed in-flight, the in-flight flag is forced true and
one drain attempt happens; and on ordinary full-ring rejection (in-flight,
not stalled) the state is untouched. -/
theorem bt_write_stall_recovery (s : BtState) (handle : Nat) (buf : List Nat)
    (now : Nat) (sendOk : Bool) (hha : handle = s.spp_handle)
    (h0 : s.spp_handle ≠ 0) (hb : buf ≠ [])
    (hfull : BT_SPP_RINGBUF_TX_SIZE < s.spp_tx_buffer.length + buf.length)
    (hq : s.spp_tx_buffer ≠ []) :
    (bt_write s handle buf now sendOk).2 = 0 ∧
    (s.spp_writing = true → 5 * 1000000 < now - s.spp_last_us →
      (bt_write s handle buf now sendOk).1.spp_drain_attempts =
        s.spp_drain_attempts + 1) ∧
    (s.spp_writing = false →
      (bt_write s handle buf now sendOk).1.spp_drain_attempts =
        s.spp_drain_attempts + 1 ∧
      (bt_write s handle buf now sendOk).1.spp_writing = true) ∧
    (s.spp_writing = true → ¬ (5 * 1000000 < now - s.spp_last_us) →
      (bt_write s handle buf now sendOk).1 = s) := by
  subst hha
  have hh : ¬ s.spp_handle ≠ s.spp_handle := by simp
  have hwr : (_write s s.spp_handle now sendOk).spp_writing = s.spp_writing :=
    _write_writing_of_nonempty rfl hq
  have hq2 : ({ s with spp_writing := true } : BtState).spp_tx_buffer ≠ [] := hq
  by_cases hw : s.spp_writing = true
  · by_cases hst : 5 * 1000000 < now - s.spp_last_us
    · have e : bt_write s s.spp_handle buf now sendOk =
          (_write s s.spp_handle now sendOk, 0) := by
        unfold bt_write
        rw [if_neg hb, if_neg hh, if_pos hfull]
        rw [if_pos (show (s.spp_writing = true) ∧ _ from ⟨hw, hst⟩)]
        rw [bt_write_trigger_of_writing _ _ _ (by rw [hwr]; exact hw)]
      rw [e]
      exact ⟨rfl, fun _ _ => _write_drains rfl,
        fun hwf => absurd hw (by simp [hwf]),
        fun _ hst2 => absurd hst hst2⟩
    · have e : bt_write s s.spp_handle buf now sendOk = (s, 0) := by
        unfold bt_write
        rw [if_neg hb, if_neg hh, if_pos hfull]
        rw [if_neg (show ¬ ((s.spp_writing = true) ∧ _) from fun hc => hst hc.2)]
        rw [bt_write_trigger_of_writing _ _ _ hw]
      rw [e]
      exact ⟨rfl, fun _ hst2 => absurd hst2 hst,
        fun hwf => absurd hw (by simp [hwf]), fun _ _ => rfl⟩
  · have hwf : s.spp_writing = false := by simpa using hw
    have e : bt_write s s.spp_handle buf now sendOk =
        (_write { s with spp_writing := true } s.spp_handle now sendOk, 0) := by
      unfold bt_write
      rw [if_neg hb, if_neg hh, if_pos hfull]
      rw [if_neg (show ¬ ((s.spp_writing = true) ∧ _) from fun hc => hw hc.1)]
      rw [bt_write_trigger_of_idle _ _ _ hwf]
    rw [e]
    exact ⟨rfl, fun hwt _ => absurd hwt hw,
      fun _ => ⟨_write_drains rfl, _write_writing_of_nonempty rfl hq2⟩,
      fun hwt _ => absurd hwt hw⟩

set_option maxRecDepth 8192 in
/-- Closed witness for C7: open handle 7, ring full (capacity-many queued
bytes), a one-byte write while no drain is believed in-flight. -/
theorem bt_write_stall_recovery_witness :
    (⟨7, [], List.replicate 10240 0, false, false, 0, [], 0⟩ : BtState).spp_handle ≠ 0 ∧
    ([9] : List Nat) ≠ [] ∧
    BT_SPP_RINGBUF_TX_SIZE <
      (⟨7, [], List.replicate 10240 0, false, false, 0, [], 0⟩ : BtState).spp_tx_buffer.length +
        ([9] : List Nat).length ∧
    (⟨7, [], List.replicate 10240 0, false, false, 0, [], 0⟩ : BtState).spp_tx_buffer ≠ [] ∧
    ((bt_write ⟨7, [], List.replicate 10240 0, false, false, 0, [], 0⟩ 7 [9] 0 true).2 = 0 ∧
      (bt_write ⟨7, [], List.replicate 10240 0, false, false, 0, [], 0⟩ 7 [9] 0 true).1.spp_drain_attempts = 0 + 1 ∧
      (bt_write ⟨7, [], List.replicate 10240 0, false, false, 0, [], 0⟩ 7 [9] 0 true).1.spp_writing = true) := by
  have hlen : (List.replicate 10240 (0 : Nat)).length = 10240 :=
    List.length_replicate 10240 0
  have e0 : (⟨7, [], List.replicate 10240 0, false, false, 0, [], 0⟩ : BtState).spp_handle = 7 :=
    rfl
  have e1 : (⟨7, [], List.replicate 10240 0, false, false, 0, [], 0⟩ : BtState).spp_tx_buffer =
      List.replicate 10240 0 := rfl
  have h0 : (⟨7, [], List.replicate 10240 0, false, false, 0, [], 0⟩ : BtState).spp_handle ≠ 0 := by
    rw [e0]
    norm_num
  have hb9 : ([9] : List Nat) ≠ [] := by
    intro he
    exact absurd (congrArg List.length he) (by norm_num)
  have hfull : BT_SPP_RINGBUF_TX_SIZE <
      (⟨7, [], List.replicate 10240 0, false, false, 0, [], 0⟩ : BtState).spp_tx_buffer.length +
        ([9] : List Nat).length := by
    rw [e1, hlen]
    norm_num [BT_SPP_RINGBUF_TX_SIZE]
  have hq : (⟨7, [], List.replicate 10240 0, false, false, 0, [], 0⟩ : BtState).spp_tx_buffer ≠ [] := by
    rw [e1]
    intro he
    have h2 := congrArg List.length he
    rw [hlen] at h2
    exact absurd h2 (by norm_num)
  have h := bt_write_stall_recovery ⟨7, [], List.replicate 10240 0, false, false, 0, [], 0⟩
    7 [9] 0 true rfl h0 hb9 hfull hq
  exact ⟨h0, hb9, hfull, hq, h.1, (h.2.2.1 rfl).1, (h.2.2.1 rfl).2⟩

-- ---------------------------  Claim C9  ---------------------------

/-- C9: while a connection is active, `_open` for a second handle only sets
the second-connection flag and disconnects the new handle; the active
handle, both rings, the in-flight flag and the last-send timestamp are all
left unchanged. -/
theorem bt_open_reject_second (s : BtState) (handle : Nat) (rxOk txOk : Bool)
    (h0 : s.spp_handle ≠ 0) :
    _open s handle rxOk txOk =
      ({ s with spp_second_connexion := true }, [BtEvent.disconnect handle]) ∧
    (_open s handle rxOk txOk).1.spp_handle = s.spp_handle ∧
    (_open s handle rxOk txOk).1.spp_rx_buffer = s.spp_rx_buffer ∧
    (_open s handle rxOk txOk).1.spp_tx_buffer = s.spp_tx_buffer ∧
    (_open s handle rxOk txOk).1.spp_writing = s.spp_writing ∧
    (_open s handle rxOk txOk).1.spp_last_us = s.spp_last_us := by
  unfold _open
  rw [if_pos h0]
  exact ⟨rfl, rfl, rfl, rfl, rfl, rfl⟩

/-- Closed witness for C9: an active connection with handle 7 rejects an
open attempt with handle 8. -/
theorem bt_open_reject_second_witness :
    (⟨7, [1], [2], true, false, 5, [], 0⟩ : BtState).spp_handle ≠ 0 ∧
    (_open ⟨7, [1], [2], true, false, 5, [], 0⟩ 8 true true =
      ({ (⟨7, [1], [2], true, false, 5, [], 0⟩ : BtState) with
          spp_second_connexion := true }, [BtEvent.disconnect 8]) ∧
    (_open ⟨7, [1], [2], true, false, 5, [], 0⟩ 8 true true).1.spp_handle =
      (⟨7, [1], [2], true, false, 5, [], 0⟩ : BtState).spp_handle ∧
    (_open ⟨7, [1], [2], true, false, 5, [], 0⟩ 8 true true).1.spp_rx_buffer =
      (⟨7, [1], [2], true, false, 5, [], 0⟩ : BtState).spp_rx_buffer ∧
    (_open ⟨7, [1], [2], true, false, 5, [], 0⟩ 8 true true).1.spp_tx_buffer =
      (⟨7, [1], [2], true, false, 5, [], 0⟩ : BtState).spp_tx_buffer ∧
    (_open ⟨7, [1], [2], true, false, 5, [], 0⟩ 8 true true).1.spp_writing =
      (⟨7, [1], [2], true, false, 5, [], 0⟩ : BtState).spp_writing ∧
    (_open ⟨7, [1], [2], true, false, 5, [], 0⟩ 8 true true).1.spp_last_us =
      (⟨7, [1], [2], true, false, 5, [], 0⟩ : BtState).spp_last_us) :=
  ⟨by decide, bt_open_reject_second ⟨7, [1], [2], true, false, 5, [], 0⟩ 8 true true (by decide)⟩

-- ===========================  MonitorStreamer (elm.c)  ===========================

/-- One uppercase hex digit. -/
def hexDigit (n : Nat) : Char :=
  if n < 10 then Char.ofNat (48 + n) else Char.ofNat (55 + n)

/-- Hex digits of `n`, little-endian, empty for 0 (fuelled recursion; 16
digits cover every value the firmware prints). -/
def hexDigitsAux : Nat → Nat → List Char
  | 0, _ => []
  | fuel + 1, n => if n = 0 then [] else hexDigit (n % 16) :: hexDigitsAux fuel (n / 16)

/-- `printf("%0*X")`: `n` in uppercase hex, zero-padded to `width`. -/
def hexString (width n : Nat) : String :=
  let ds := hexDigitsAux 16 n
  String.mk (ds ++ List.replicate (width - ds.length) '0').reverse

/-- `_elm_write_can`: the frame line the monitor emits — optional 3-digit
identifier, optional 2-digit DLC, payload bytes as 2 hex digits each, each
field followed by a space when spaces are enabled, then the newline
sequence. -/
def _elm_write_can_str (g : ElmGlobals) (msg : CanMessage) : String :=
  (if g.elm_headers then hexString 3 msg.identifier ++ ELM_SPACE g else "") ++
  (if g.elm_dlc then hexString 2 msg.data_length_code ++ ELM_SPACE g else "") ++
  String.join ((msg.data.take msg.data_length_code).map
    (fun b => hexString 2 b ++ ELM_SPACE g)) ++
  ELM_NEWLINE g

/-- Result of one iteration of the `elm_monitor_task` loop: continue with
the timestamp of the last passing frame, or leave the loop (the task then
clears the monitor flag and ends). -/
inductive MonitorOutcome where
  | cont (last_us : Nat) (out : List String)
  | stop (out : List String)
deriving DecidableEq, Repr

/-- The idle test `(us - last_us) >= G.elm_timeout * 1000` of the monitor
loop: 32-bit wrapping subtraction and multiplication. -/
def monitor_timeout_hit (g : ElmGlobals) (us last : Nat) : Bool :=
  decide ((g.elm_timeout * 1000) % U32 ≤ sub32 us last)

/-- One iteration of the `while (G.elm_monitor)` body of `elm_monitor_task`:
`rx` is what `xRingbufferReceive` delivered this cycle, `us` the current
time (`uint32_t`), `writeOk` the result of flushing the frame line.
`last_us` starts as the monitor start time and tracks the timestamp of the
last frame that passed the filter.  A passing frame is written (stopping
on write failure before the idle test); then the idle test compares `us`
against the updated `last_us` and on timeout prints the NO DATA sentinel
plus newline and leaves the loop. -/
def elm_monitor_step (g : ElmGlobals) (last_us : Nat)
    (rx : Option CanMessageTimestamp) (us : Nat) (writeOk : Bool) :
    MonitorOutcome :=
  match rx with
  | some m =>
      if elm_filter_test g m.msg.identifier (m.timestamp % U32) then
        if ¬ writeOk then .stop [_elm_write_can_str g m.msg]
        else
          if monitor_timeout_hit g us (m.timestamp % U32) then
            .stop [_elm_write_can_str g m.msg, ELM_NODATA_PROMPT ++ ELM_NEWLINE g]
          else .cont (m.timestamp % U32) [_elm_write_can_str g m.msg]
      else
        if monitor_timeout_hit g us last_us then
          .stop [ELM_NODATA_PROMPT ++ ELM_NEWLINE g]
        else .cont last_us []
  | none =>
      if monitor_timeout_hit g us last_us then
        .stop [ELM_NODATA_PROMPT ++ ELM_NEWLINE g]
      else .cont last_us []

/-- `_exit` of the monitor task: the monitor flag is cleared when the loop
is left. -/
def elm_monitor_task_exit (g : ElmGlobals) : ElmGlobals :=
  { g with elm_monitor := false }

-- ---------------------------  Claim C8  ---------------------------

/-- C8: in each monitor cycle, when no frame passes the filter, the monitor
emits the NO DATA sentinel plus the configured newline and stops exactly
when `elm_timeout` ms have elapsed since the last passing frame (or the
monitor start); a passing frame whose write fails stops the monitor
immediately; a passing frame that is written restarts the idle clock at
that frame's timestamp; and leaving the loop clears the monitor flag. -/
theorem elm_monitor_step_spec (g : ElmGlobals) (last_us us : Nat)
    (rx : Option CanMessageTimestamp) (writeOk : Bool) :
    ((rx = none ∨ ∃ m, rx = some m ∧
        elm_filter_test g m.msg.identifier (m.timestamp % U32) = false) →
      (monitor_timeout_hit g us last_us = true →
        elm_monitor_step g last_us rx us writeOk =
          .stop [ELM_NODATA_PROMPT ++ ELM_NEWLINE g]) ∧
      (monitor_timeout_hit g us last_us = false →
        elm_monitor_step g last_us rx us writeOk = .cont last_us [])) ∧
    (∀ m, rx = some m →
      elm_filter_test g m.msg.identifier (m.timestamp % U32) = true →
      writeOk = false →
      elm_monitor_step g last_us rx us writeOk =
        .stop [_elm_write_can_str g m.msg]) ∧
    (∀ m, rx = some m →
      elm_filter_test g m.msg.identifier (m.timestamp % U32) = true →
      writeOk = true →
      (monitor_timeout_hit g us (m.timestamp % U32) = true →
        elm_monitor_step g last_us rx us writeOk =
          .stop [_elm_write_can_str g m.msg, ELM_NODATA_PROMPT ++ ELM_NEWLINE g]) ∧
      (monitor_timeout_hit g us (m.timestamp % U32) = false →
        elm_monitor_step g last_us rx us writeOk =
          .cont (m.timestamp % U32) [_elm_write_can_str g m.msg])) ∧
    (elm_monitor_task_exit g).elm_monitor = false := by
  refine ⟨fun hno => ⟨fun hto => ?_, fun hto => ?_⟩,
    fun m hm hf hw => ?_, fun m hm hf hw => ⟨fun hto => ?_, fun hto => ?_⟩, rfl⟩
  · rcases hno with h | ⟨m, hm, hf⟩
    · subst h; simp [elm_monitor_step, hto]
    · subst hm; simp [elm_monitor_step, hf, hto]
  · rcases hno with h | ⟨m, hm, hf⟩
    · subst h; simp [elm_monitor_step, hto]
    · subst hm; simp [elm_monitor_step, hf, hto]
  · subst hm; simp [elm_monitor_step, hf, hw]
  · subst hm; simp [elm_monitor_step, hf, hw, hto]
  · subst hm; simp [elm_monitor_step, hf, hw, hto]

/-- Closed witness for C8: default session, monitor idle since time 0,
cycle at 6 s with no frame delivered (timeout 5000 ms) — the step stops
with the NO DATA sentinel. -/
theorem elm_monitor_step_spec_witness :
    monitor_timeout_hit elm_initial 6000000 0 = true ∧
    elm_monitor_step elm_initial 0 none 6000000 true =
      .stop [ELM_NODATA_PROMPT ++ ELM_NEWLINE elm_initial] :=
  ⟨by decide,
    ((elm_monitor_step_spec elm_initial 0 6000000 none true).1 (Or.inl rfl)).1 (by decide)⟩

-- ===========================  CommandInterpreter (elm.c)  ===========================

/-- `TO_UPPER`: ASCII upper-case fold used by the case-insensitive
comparisons. -/
def TO_UPPER (c : Char) : Char :=
  if 97 ≤ c.toNat ∧ c.toNat ≤ 122 then Char.ofNat (c.toNat - 32) else c

/-- `strcasecmp(a, b) == 0` on NUL-free byte strings. -/
def strcaseeq : List Char → List Char → Bool
  | [], [] => true
  | [], _ :: _ => false
  | _ :: _, [] => false
  | a :: as, b :: bs => TO_UPPER a == TO_UPPER b && strcaseeq as bs

/-- `strncasecmp(a, b, n) == 0` on NUL-free byte strings. -/
def strncaseeq : Nat → List Char → List Char → Bool
  | 0, _, _ => true
  | _ + 1, [], [] => true
  | _ + 1, [], _ :: _ => false
  | _ + 1, _ :: _, [] => false
  | n + 1, a :: as, b :: bs => TO_UPPER a == TO_UPPER b && strncaseeq n as bs

/-- The ubiquitous `while (*c == ' ') c++;`. -/
def skip_spaces : List Char → List Char
  | ' ' :: cs => skip_spaces cs
  | cs => cs

/-- `c[i]` on the command buffer: reading past the end yields the NUL
terminator. -/
def char_at (cs : List Char) (i : Nat) : Char :=
  (cs.drop i).headD (Char.ofNat 0)

/-- Split a list at the first character satisfying `p` (which is kept at
the head of the second component). -/
def take_until (p : Char → Bool) : List Char → List Char × List Char
  | [] => ([], [])
  | c :: cs =>
      if p c then ([], c :: cs)
      else
        let r := take_until p cs
        (c :: r.1, r.2)

/-- `elm_read_str`: skip spaces, then read either a quoted (`"` or `'`)
token or a space-delimited token; the delimiter, when present, is
consumed. -/
def elm_read_str (cs : List Char) : List Char × List Char :=
  let cs := skip_spaces cs
  match cs with
  | '"' :: rest =>
      let r := take_until (fun c => c == '"') rest
      (r.1, match r.2 with | _ :: t => t | [] => [])
  | '\'' :: rest =>
      let r := take_until (fun c => c == '\'') rest
      (r.1, match r.2 with | _ :: t => t | [] => [])
  | _ =>
      let r := take_until (fun c => c == ' ') cs
      (r.1, match r.2 with | _ :: t => t | [] => [])

/-- The accumulator loop of `elm_read_hexa` (`*h = (*h << 4) + digit` in
wrapping `uint32_t` arithmetic), greedy over `0-9A-Fa-f`. -/
def elm_read_hexa_go : List Char → Nat → Nat × List Char
  | [], h => (h, [])
  | c :: cs, h =>
      if 48 ≤ c.toNat ∧ c.toNat ≤ 57 then
        elm_read_hexa_go cs ((h * 16 + (c.toNat - 48)) % U32)
      else if 65 ≤ c.toNat ∧ c.toNat ≤ 70 then
        elm_read_hexa_go cs ((h * 16 + (c.toNat - 55)) % U32)
      else if 97 ≤ c.toNat ∧ c.toNat ≤ 102 then
        elm_read_hexa_go cs ((h * 16 + (c.toNat - 87)) % U32)
      else (h, c :: cs)

/-- `elm_read_hexa`: parse a hex number (0 when the input starts with a
non-hex character), returning the rest of the input. -/
def elm_read_hexa (cs : List Char) : Nat × List Char :=
  elm_read_hexa_go cs 0

/-- The nibble loop of the `ATCRA<pattern>` branch: hex digits extend
pattern and mask by one nibble, `X`/`x` wildcards extend only the shifts,
anything else is skipped. -/
def cra_parse : List Char → Nat → Nat → Nat × Nat
  | [], f, m => (f, m)
  | c :: cs, f, m =>
      if 48 ≤ c.toNat ∧ c.toNat ≤ 57 then
        cra_parse cs ((f * 16 + (c.toNat - 48)) % U32) ((m * 16 + 15) % U32)
      else if 65 ≤ c.toNat ∧ c.toNat ≤ 70 then
        cra_parse cs ((f * 16 + (c.toNat - 55)) % U32) ((m * 16 + 15) % U32)
      else if 97 ≤ c.toNat ∧ c.toNat ≤ 102 then
        cra_parse cs ((f * 16 + (c.toNat - 87)) % U32) ((m * 16 + 15) % U32)
      else if c = 'X' ∨ c = 'x' then
        cra_parse cs ((f * 16) % U32) ((m * 16) % U32)
      else cra_parse cs f m

/-- The protocol table (`elm_protocols`): key character and description.
(The header-type tag of the C table is not read by any modelled code.) -/
def elm_protocols : List (Char × String) := [
  ('0', "Automatic"),
  ('1', "SAE J1850 PWM"),
  ('2', "SAE J1850 VPW"),
  ('3', "ISO 9141-2"),
  ('4', "ISO 14230-4 (KWP 5BAUD)"),
  ('5', "ISO 14230-4 (KWP FAST)"),
  ('6', "ISO 15765-4 (CAN 11/500)"),
  ('7', "ISO 15765-4 (CAN 29/500)"),
  ('8', "ISO 15765-4 (CAN 11/250)"),
  ('9', "ISO 15765-4 (CAN 29/250)"),
  ('A', "SAE J1939 (CAN 29/250)"),
  ('B', "USER1 CAN"),
  ('C', "USER2 CAN")]

/-- `elm_get_protocol`: first table entry for the character, defaulting to
entry 0. -/
def elm_get_protocol (p : Char) : Char × String :=
  (elm_protocols.find? (fun e => e.1 == p)).getD ('0', "Automatic")

/-- Everything `elm_do_cmd` emits: text written to the session output, and
the opaque external actions it dispatches to collaborators. -/
inductive OutEvent where
  | text (s : String)
  | restart
  | psList
  | freeReport
  | elogSet (level : Nat) (tag : String)
  | simuStart
  | simuStop
  | wifiStatus
  | wifiSta (ssid pwd : String)
  | wifiAp (ssid pwd : String)
  | wifiStop
  | wifiScan
  | otaInfo
  | otaUpdate (url : String)
  | monitorStarted
deriving DecidableEq, Repr

/-- Results the external collaborators report back (the booleans
`wifi_sta`, `wifi_ap` and `wifi_stop` return). -/
structure ElmEnv where
  wifi_sta_ok : String → String → Bool
  wifi_ap_ok : String → String → Bool
  wifi_stop_ok : Bool

/-- A fixed benign environment for concrete evaluations. -/
def elm_env0 : ElmEnv := ⟨fun _ _ => true, fun _ _ => true, true⟩

/-- `elm_write_ok`. -/
def ok_out (g : ElmGlobals) : List OutEvent :=
  [.text (ELM_OK_PROMPT ++ ELM_NEWLINE g)]

/-- `elm_write_ok_error`. -/
def ok_error_out (g : ElmGlobals) (ok : Bool) : List OutEvent :=
  if ok then [.text (ELM_OK_PROMPT ++ ELM_NEWLINE g)]
  else [.text (ELM_ERROR_PROMPT ++ ELM_NEWLINE g)]

/-- The `_err` tail of `elm_do_cmd`: reply with the query prompt. -/
def err_out (g : ElmGlobals) : List OutEvent :=
  [.text (ELM_QUERY_PROMPT ++ ELM_NEWLINE g)]

/-- `elm_monitor_start`: set the monitor flag and spawn the monitor task
unless one is already running. -/
def elm_monitor_start_m (g : ElmGlobals) : ElmGlobals × List OutEvent :=
  if g.elm_monitor then (g, [])
  else ({ g with elm_monitor := true }, [.monitorStarted])

/-- The `STFPA`/`STFBA` (and swapped-name) branches: `<hex> , <hex>` parsed
as pattern and mask, added to the pass (`isPass`) or block table; `OK` on
success, `??` when the table is full, the query prompt on a syntax error
(`goto _err`). -/
def elm_st_filter_add_cmd (g : ElmGlobals) (c : List Char) (isPass : Bool) :
    ElmGlobals × List OutEvent :=
  let c1 := skip_spaces (c.drop 3)
  if c1 = [] then (g, err_out g)
  else
    let r1 := elm_read_hexa c1
    let c3 := skip_spaces r1.2
    match c3 with
    | ',' :: c4 =>
        let c5 := skip_spaces c4
        let r2 := elm_read_hexa c5
        let tbl := if isPass then g.pass_filter else g.block_filter
        match elm_filter_add tbl r1.1 r2.1 with
        | some tbl2 =>
            let g2 := if isPass then { g with pass_filter := tbl2 }
              else { g with block_filter := tbl2 }
            (g2, ok_out g2)
        | none => (g, [.text ("??" ++ ELM_NEWLINE g)])
    | _ => (g, err_out g)

/-- The `ST` command group of `elm_do_cmd`; `c` is the command with the
`ST` prefix stripped. -/
def elm_st_cmd (g : ElmGlobals) (c : List Char) : ElmGlobals × List OutEvent :=
  if strcaseeq c ['D', 'I'] then
    (g, [.text (ST_VERSION_STRING ++ ELM_NEWLINE g)])
  else if strcaseeq c ['F'] then
    (g, [])
  else if strcaseeq c ['F', 'A', 'C'] || strcaseeq c ['F', 'C', 'A'] then
    let g2 := { g with
      pass_filter := elm_filter_clear g.pass_filter
      block_filter := elm_filter_clear g.block_filter }
    (g2, ok_out g2)
  else if strncaseeq 3 c ['F', 'P', 'A'] || strncaseeq 3 c ['F', 'A', 'P'] then
    elm_st_filter_add_cmd g c true
  else if strcaseeq c ['F', 'P', 'C'] || strcaseeq c ['F', 'C', 'P'] then
    let g2 := { g with pass_filter := elm_filter_clear g.pass_filter }
    (g2, ok_out g2)
  else if strncaseeq 3 c ['F', 'B', 'A'] || strncaseeq 3 c ['F', 'A', 'B'] then
    elm_st_filter_add_cmd g c false
  else if strcaseeq c ['F', 'B', 'C'] || strcaseeq c ['F', 'C', 'B'] then
    let g2 := { g with block_filter := elm_filter_clear g.block_filter }
    (g2, ok_out g2)
  else if strcaseeq c ['M'] then
    elm_monitor_start_m g
  else if strcaseeq c ['M', 'A'] then
    elm_monitor_start_m g
  else (g, err_out g)

/-- The `AT` command group of `elm_do_cmd`, in the source's branch order;
`c` is the command with the `AT` prefix stripped.  Toggle branches write
their acknowledgement after mutating the state (so `ATL0`'s own `OK` is
already CR-terminated). -/
def elm_at_cmd (g : ElmGlobals) (c : List Char) : ElmGlobals × List OutEvent :=
  if strcaseeq c ['@', '1'] then
    (g, [.text (ELM_DEVICE_STRING ++ ELM_NEWLINE g)])
  else if strcaseeq c ['@', '2'] then
    (g, [.text ((g.elm_device_identifier.getD "") ++ ELM_NEWLINE g)])
  else if strcaseeq c ['@', '3'] then
    let g2 := { g with elm_device_identifier := some (String.mk (skip_spaces (c.drop 2))) }
    (g2, ok_out g2)
  else if strcaseeq c ['A', 'L'] then
    let g2 := { g with elm_long_message := true }
    (g2, ok_out g2)
  else if strncaseeq 2 c ['A', 'T'] &&
      (char_at c 2 == '0' || char_at c 2 == '1' || char_at c 2 == '2') then
    let g2 := { g with elm_adaptive := (char_at c 2).toNat - 48 }
    (g2, ok_out g2)
  else if strncaseeq 3 c ['C', 'A', 'F'] &&
      (char_at c 3 == '0' || char_at c 3 == '1') then
    let g2 := { g with elm_can_auto_format := char_at c 3 != '0' }
    (g2, ok_out g2)
  else if strncaseeq 3 c ['C', 'F', 'C'] &&
      (char_at c 3 == '0' || char_at c 3 == '1') then
    let g2 := { g with elm_can_flow_control := char_at c 3 != '0' }
    (g2, ok_out g2)
  else if strncaseeq 2 c ['C', 'F'] then
    let r := elm_read_hexa (c.drop 2)
    let g2 := { g with elm_filter := ⟨r.1, g.elm_filter.mask⟩ }
    (g2, ok_out g2)
  else if strncaseeq 2 c ['C', 'M'] then
    let r := elm_read_hexa (c.drop 2)
    let g2 := { g with elm_filter := ⟨g.elm_filter.pattern, r.1⟩ }
    (g2, ok_out g2)
  else if strcaseeq c ['C', 'R', 'A'] then
    let g2 := { g with elm_filter := ⟨0, 0⟩ }
    (g2, ok_out g2)
  else if strncaseeq 3 c ['C', 'R', 'A'] then
    let r := cra_parse (c.drop 3) 0 0xffffffff
    let g2 := { g with elm_filter := ⟨r.1, r.2⟩ }
    (g2, ok_out g2)
  else if strcaseeq c ['C', 'S'] then
    (g, [.text ("STARTED" ++ ELM_NEWLINE g)])
  else if strncaseeq 3 c ['C', 'S', 'M'] &&
      (char_at c 3 == '0' || char_at c 3 == '1') then
    let g2 := { g with elm_can_silent_mode := char_at c 3 != '0' }
    (g2, ok_out g2)
  else if strcaseeq c ['D'] then
    (elm_reset g, ok_out (elm_reset g))
  else if strncaseeq 1 c ['D'] && (char_at c 1 == '0' || char_at c 1 == '1') then
    let g2 := { g with elm_dlc := char_at c 1 != '0' }
    (g2, ok_out g2)
  else if strcaseeq c ['D', 'P'] then
    (g, [.text ((if g.elm_protocol_auto then "Auto, " else "") ++
      (elm_get_protocol g.elm_protocol).2 ++ ELM_NEWLINE g)])
  else if strcaseeq c ['D', 'P', 'N'] then
    (g, [.text ((if g.elm_protocol_auto then "A" else "") ++
      String.mk [(elm_get_protocol g.elm_protocol).1] ++ ELM_NEWLINE g)])
  else if strncaseeq 1 c ['E'] && (char_at c 1 == '0' || char_at c 1 == '1') then
    let g2 := { g with elm_echo := char_at c 1 != '0' }
    (g2, ok_out g2)
  else if strncaseeq 1 c ['H'] && (char_at c 1 == '0' || char_at c 1 == '1') then
    let g2 := { g with elm_headers := char_at c 1 != '0' }
    (g2, ok_out g2)
  else if strcaseeq c ['I'] then
    (g, [.text (ELM_VERSION_STRING ++ ELM_NEWLINE g)])
  else if strncaseeq 1 c ['L'] && (char_at c 1 == '0' || char_at c 1 == '1') then
    let g2 := { g with elm_linefeed := char_at c 1 != '0' }
    (g2, ok_out g2)
  else if strncaseeq 1 c ['M'] && (char_at c 1 == '0' || char_at c 1 == '1') then
    let g2 := { g with elm_memory := char_at c 1 != '0' }
    (g2, ok_out g2)
  else if strcaseeq c ['M', 'A'] then
    elm_monitor_start_m g
  else if strncaseeq 2 c ['M', 'R'] then
    let r := elm_read_hexa (c.drop 2)
    let g2 := { g with elm_filter :=
      ⟨(g.elm_filter.pattern &&& 0xffffff00) + (r.1 &&& 0xff),
        g.elm_filter.mask ||| 0xff⟩ }
    elm_monitor_start_m g2
  else if strncaseeq 2 c ['M', 'T'] then
    let r := elm_read_hexa (c.drop 2)
    let g2 := { g with elm_filter :=
      ⟨(g.elm_filter.pattern &&& 0xff) + (r.1 &&& 0xffffff00),
        g.elm_filter.mask ||| 0xffffff00⟩ }
    elm_monitor_start_m g2
  else if strncaseeq 1 c ['R'] && (char_at c 1 == '0' || char_at c 1 == '1') then
    (g, ok_out g)
  else if strncaseeq 1 c ['S'] && (char_at c 1 == '0' || char_at c 1 == '1') then
    let g2 := { g with elm_spaces := char_at c 1 != '0' }
    (g2, ok_out g2)
  else if strncaseeq 2 c ['S', 'P'] then
    let c2 := skip_spaces (c.drop 2)
    let g2 := if char_at c2 0 == 'A'
      then { g with elm_protocol_auto := true, elm_protocol := char_at c2 1 }
      else { g with elm_protocol_auto := false, elm_protocol := char_at c2 0 }
    (g2, ok_out g2)
  else if strncaseeq 2 c ['S', 'T'] then
    let r := elm_read_hexa (c.drop 2)
    let g2 := { g with elm_timeout := r.1 }
    (g2, ok_out g2)
  else if strncaseeq 2 c ['T', 'P'] then
    let c2 := skip_spaces (c.drop 2)
    let g2 := if char_at c2 0 == 'A'
      then { g with elm_protocol_auto := true, elm_protocol := char_at c2 1 }
      else { g with elm_protocol_auto := false, elm_protocol := char_at c2 0 }
    let g3 := if g2.elm_protocol == '0' then { g2 with elm_protocol_auto := true } else g2
    (g3, ok_out g3)
  else if strcaseeq c ['W', 'S'] then
    (elm_reset g, [.text (ELM_VERSION_STRING ++ ELM_NEWLINE (elm_reset g))])
  else if strcaseeq c ['Z'] then
    (elm_reset g, [.text (ELM_VERSION_STRING ++ ELM_NEWLINE (elm_reset g))])
  else (g, err_out g)

/-- The body of `elm_do_cmd` after the previous-command substitution:
leading-space skip, then the shell / ST / AT chains in source order,
falling through to the `_err` reply. -/
def elm_dispatch (env : ElmEnv) (g : ElmGlobals) (cmd0 : List Char) :
    ElmGlobals × List OutEvent :=
  let cmd := skip_spaces cmd0
  if strcaseeq cmd ['R', 'E', 'B', 'O', 'O', 'T'] ||
      strcaseeq cmd ['R', 'E', 'S', 'T', 'A', 'R', 'T'] then
    (g, [.restart])
  else if strcaseeq cmd ['P', 'S'] then
    (g, [.text "\r\n", .psList])
  else if strcaseeq cmd ['F', 'R', 'E', 'E'] then
    (g, [.text "\r\n", .freeReport])
  else if strncaseeq 4 cmd ['E', 'L', 'O', 'G'] then
    let c1 := skip_spaces (cmd.drop 4)
    let r := if c1 = [] then ((3 : Nat), c1) else elm_read_hexa c1
    let c3 := skip_spaces r.2
    let tag := if c3 = [] then "*" else String.mk c3
    (g, [.elogSet r.1 tag])
  else if strncaseeq 4 cmd ['S', 'I', 'M', 'U'] then
    let c1 := skip_spaces (cmd.drop 4)
    if strncaseeq 3 c1 ['S', 'T', 'A', 'R', 'T'] then (g, [.simuStart])
    else if strncaseeq 3 c1 ['S', 'T', 'O', 'P'] then (g, [.simuStop])
    else (g, err_out g)
  else if strncaseeq 4 cmd ['W', 'I', 'F', 'I'] then
    let c1 := skip_spaces (cmd.drop 4)
    if c1 = [] then (g, [.text "\r\n", .wifiStatus])
    else if strncaseeq 3 c1 ['S', 'T', 'A'] then
      let c2 := skip_spaces (c1.drop 3)
      if c2 = [] then (g, [])
      else
        let r1 := elm_read_str c2
        let r2 := elm_read_str r1.2
        let ok := env.wifi_sta_ok (String.mk r1.1) (String.mk r2.1)
        ({ g with elm_previous_cmd := [] },
          .wifiSta (String.mk r1.1) (String.mk r2.1) :: ok_error_out g ok)
    else if strncaseeq 2 c1 ['A', 'P'] then
      let c2 := skip_spaces (c1.drop 2)
      if c2 = [] then (g, [])
      else
        let r1 := elm_read_str c2
        let r2 := elm_read_str r1.2
        let ok := env.wifi_ap_ok (String.mk r1.1) (String.mk r2.1)
        ({ g with elm_previous_cmd := [] },
          .wifiAp (String.mk r1.1) (String.mk r2.1) :: ok_error_out g ok)
    else if strncaseeq 4 c1 ['S', 'T', 'O', 'P'] then
      ({ g with elm_previous_cmd := [] },
        .wifiStop :: ok_error_out g env.wifi_stop_ok)
    else if strncaseeq 4 c1 ['S', 'C', 'A', 'N'] then
      (g, [.text "\r\n", .wifiScan])
    else (g, err_out g)
  else if strncaseeq 3 cmd ['O', 'T', 'A'] then
    let c1 := skip_spaces (cmd.drop 3)
    if c1 = [] then (g, [.otaInfo]) else (g, [.otaUpdate (String.mk c1)])
  else if strncaseeq 2 cmd ['S', 'T'] then
    elm_st_cmd g (cmd.drop 2)
  else if strncaseeq 2 cmd ['A', 'T'] then
    elm_at_cmd g (cmd.drop 2)
  else (g, err_out g)

/-- `elm_do_cmd`: an empty line is replaced by the previously accepted
line (and not stored); a non-empty line is stored as the previous command
before being dispatched. -/
def elm_do_cmd (env : ElmEnv) (g : ElmGlobals) (cmd : List Char) :
    ElmGlobals × List OutEvent :=
  if cmd = [] then elm_dispatch env g g.elm_previous_cmd
  else elm_dispatch env { g with elm_previous_cmd := cmd } cmd

-- ---------------------------  Claim C6  ---------------------------

/-- C6: dispatching an empty command line re-executes the previously
accepted line with identical state effects and identical output (the
whole result of the dispatch is equal), and the empty line itself is not
stored: the stored previous-command line afterwards is exactly what
re-executing the previous command leaves behind. -/
theorem elm_do_cmd_blank_repeat (env : ElmEnv) (g : ElmGlobals) :
    elm_do_cmd env g [] = elm_do_cmd env g g.elm_previous_cmd ∧
    (elm_do_cmd env g []).1.elm_previous_cmd =
      (elm_do_cmd env g g.elm_previous_cmd).1.elm_previous_cmd := by
  have h : elm_do_cmd env g [] = elm_do_cmd env g g.elm_previous_cmd := by
    by_cases hp : g.elm_previous_cmd = []
    · rw [hp]
    · show elm_dispatch env g g.elm_previous_cmd = elm_do_cmd env g g.elm_previous_cmd
      unfold elm_do_cmd
      rw [if_neg hp]
  exact ⟨h, by rw [h]⟩

-- ---------------------------  Claim C4  ---------------------------

/-- C4 counterexample: from the default session, `ATD` answers `OK` — not
the version string — while `ATZ` does answer the version string.  So the
claim that all three reset commands re-emit the version string is false
at the concrete input `ATD`. -/
theorem elm_atd_no_version_cex :
    (elm_do_cmd elm_env0 elm_initial ['A', 'T', 'D']).2 =
      [.text ("OK" ++ "\r\n")] ∧
    (elm_do_cmd elm_env0 elm_initial ['A', 'T', 'D']).2 ≠
      [.text (ELM_VERSION_STRING ++ "\r\n")] ∧
    (elm_do_cmd elm_env0 elm_initial ['A', 'T', 'Z']).2 =
      [.text (ELM_VERSION_STRING ++ "\r\n")] :=
  ⟨rfl, by decide, rfl⟩

/-- C4 (amended): `ATZ` and `ATWS` restore the SessionConfig defaults and
re-emit the version string; `ATD` restores the same defaults but emits
`OK` instead of the version string. -/
theorem elm_reset_cmds_spec (env : ElmEnv) (g : ElmGlobals) :
    elm_do_cmd env g ['A', 'T', 'Z'] =
      (elm_reset g, [.text (ELM_VERSION_STRING ++ "\r\n")]) ∧
    elm_do_cmd env g ['A', 'T', 'W', 'S'] =
      (elm_reset g, [.text (ELM_VERSION_STRING ++ "\r\n")]) ∧
    elm_do_cmd env g ['A', 'T', 'D'] =
      (elm_reset g, [.text (ELM_OK_PROMPT ++ "\r\n")]) :=
  ⟨rfl, rfl, rfl⟩

-- ---------------------------  Claim C3  ---------------------------

/-- C3 counterexample: `elm_reset` does not touch the device identifier.
After `AT@3` (which installs a non-NULL identifier) followed by `ATZ`,
the identifier is still the installed one rather than its session-start
default `NULL`. -/
theorem elm_reset_not_complete_cex :
    (elm_do_cmd elm_env0
        (elm_do_cmd elm_env0 elm_initial ['A', 'T', '@', '3']).1
        ['A', 'T', 'Z']).1.elm_device_identifier ≠
      elm_initial.elm_device_identifier ∧
    (elm_do_cmd elm_env0
        (elm_do_cmd elm_env0 elm_initial ['A', 'T', '@', '3']).1
        ['A', 'T', 'Z']).1.elm_device_identifier = some "" ∧
    elm_initial.elm_device_identifier = none :=
  ⟨by decide, by decide, rfl⟩

/-- C3 (amended): after dispatching `ATZ`, every SessionConfig field
except the device identifier equals its documented default — echo,
linefeed, headers and spaces on, DLC display off, timeout 5000 ms, memory
on, adaptive timing 1, CAN auto-format off, CAN flow control on, CAN
silent mode on, long-message off, protocol `0` with the auto flag,
previous-command line empty, monitor inactive, AT filter zero, pass and
block tables empty — while the device identifier keeps whatever value it
had before the reset. -/
theorem elm_reset_defaults (env : ElmEnv) (g : ElmGlobals)
    (hp : filters_wf g.pass_filter = true) (hb : filters_wf g.block_filter = true) :
    (elm_do_cmd env g ['A', 'T', 'Z']).1.elm_echo = true ∧
    (elm_do_cmd env g ['A', 'T', 'Z']).1.elm_linefeed = true ∧
    (elm_do_cmd env g ['A', 'T', 'Z']).1.elm_headers = true ∧
    (elm_do_cmd env g ['A', 'T', 'Z']).1.elm_spaces = true ∧
    (elm_do_cmd env g ['A', 'T', 'Z']).1.elm_dlc = false ∧
    (elm_do_cmd env g ['A', 'T', 'Z']).1.elm_timeout = 5000 ∧
    (elm_do_cmd env g ['A', 'T', 'Z']).1.elm_memory = true ∧
    (elm_do_cmd env g ['A', 'T', 'Z']).1.elm_adaptive = 1 ∧
    (elm_do_cmd env g ['A', 'T', 'Z']).1.elm_can_auto_format = false ∧
    (elm_do_cmd env g ['A', 'T', 'Z']).1.elm_can_flow_control = true ∧
    (elm_do_cmd env g ['A', 'T', 'Z']).1.elm_can_silent_mode = true ∧
    (elm_do_cmd env g ['A', 'T', 'Z']).1.elm_long_message = false ∧
    (elm_do_cmd env g ['A', 'T', 'Z']).1.elm_protocol = '0' ∧
    (elm_do_cmd env g ['A', 'T', 'Z']).1.elm_protocol_auto = true ∧
    (elm_do_cmd env g ['A', 'T', 'Z']).1.elm_previous_cmd = [] ∧
    (elm_do_cmd env g ['A', 'T', 'Z']).1.elm_monitor = false ∧
    (elm_do_cmd env g ['A', 'T', 'Z']).1.elm_filter = ⟨0, 0⟩ ∧
    stored_rules (elm_do_cmd env g ['A', 'T', 'Z']).1.pass_filter = [] ∧
    stored_rules (elm_do_cmd env g ['A', 'T', 'Z']).1.block_filter = [] ∧
    (elm_do_cmd env g ['A', 'T', 'Z']).1.elm_device_identifier =
      g.elm_device_identifier :=
  ⟨rfl, rfl, rfl, rfl, rfl, rfl, rfl, rfl, rfl, rfl, rfl, rfl, rfl, rfl, rfl, rfl, rfl,
    elm_filter_clear_empty hp, elm_filter_clear_empty hb, rfl⟩

/-- Closed witness for C3 (amended) at the default session state. -/
theorem elm_reset_defaults_witness :
    filters_wf elm_initial.pass_filter = true ∧
    filters_wf elm_initial.block_filter = true ∧
    ((elm_do_cmd elm_env0 elm_initial ['A', 'T', 'Z']).1.elm_timeout = 5000 ∧
      stored_rules (elm_do_cmd elm_env0 elm_initial ['A', 'T', 'Z']).1.pass_filter = [] ∧
      (elm_do_cmd elm_env0 elm_initial ['A', 'T', 'Z']).1.elm_device_identifier =
        elm_initial.elm_device_identifier) :=
  ⟨by decide, by decide,
    (elm_reset_defaults elm_env0 elm_initial (by decide) (by decide)).2.2.2.2.2.1,
    (elm_reset_defaults elm_env0 elm_initial (by decide) (by decide)).2.2.2.2.2.2.2.2.2.2.2.2.2.2.2.2.2.1,
    (elm_reset_defaults elm_env0 elm_initial (by decide) (by decide)).2.2.2.2.2.2.2.2.2.2.2.2.2.2.2.2.2.2.2⟩

end TeslapLX
